import Mathlib

/-!
Verification of `runconfig.py` from the LunarFox repository.

The script computes the path of a bundled executable relative to its own
location, checks that a regular file exists there, launches it as a child
process with `subprocess.run(exe_path, check=True)`, and reports failures on
the console.  We embed the POSIX path operations the script uses
(`os.path.join`, `os.path.dirname`, `os.path.abspath` = `normpath` after
making the path absolute) as structurally recursive functions on character
lists, and the launcher itself as a pure function of an environment that
records the script location, the working directory, the filesystem facts and
the outcome of launching each path.
-/

namespace LunarFox

/-- Split a character list at every slash, mirroring Python `str.split` with
separator `'/'`: the empty list yields `[[]]`, and separators at the ends
yield empty groups. -/
def splitSlash : List Char → List (List Char)
  | [] => [[]]
  | c :: rest =>
      match splitSlash rest with
      | [] => [[]]
      | g :: gs => if c = '/' then [] :: g :: gs else (c :: g) :: gs

/-- Join groups with a single slash between consecutive groups, mirroring
Python `'/'.join`. -/
def interSlash : List (List Char) → List Char
  | [] => []
  | [g] => g
  | g :: gs => g ++ '/' :: interSlash gs

/-- `os.path.dirname` on character lists: keep everything up to and including
the last slash, then strip trailing slashes unless the head consists only of
slashes. -/
def dirnameChars (l : List Char) : List Char :=
  let head := (l.reverse.dropWhile (fun c => c ≠ '/')).reverse
  if head = [] then []
  else if head.all (fun c => c = '/') then head
  else (head.reverse.dropWhile (fun c => c = '/')).reverse

/-- `os.path.join` on character lists, for two components: an absolute second
component replaces the first; otherwise the components are glued with a slash
unless the first is empty or already ends in a slash. -/
def joinChars (a b : List Char) : List Char :=
  if b.take 1 = ['/'] then b
  else if a = [] ∨ a.getLast? = some '/' then a ++ b
  else a ++ '/' :: b

/-- `os.path.normpath` on character lists: collapse repeated slashes, drop
single dots, resolve double dots against earlier components, and keep one or
two leading slashes according to POSIX rules. -/
def normChars (l : List Char) : List Char :=
  if l = [] then ['.']
  else
    let slashes : Nat :=
      if l.take 2 = ['/', '/'] ∧ l.take 3 ≠ ['/', '/', '/'] then 2
      else if l.take 1 = ['/'] then 1 else 0
    let comps := splitSlash l
    let newComps := comps.foldl (fun acc comp =>
      if comp = [] ∨ comp = ['.'] then acc
      else if comp ≠ ['.', '.'] ∨ (slashes = 0 ∧ acc = []) ∨
          acc.getLast? = some ['.', '.'] then acc ++ [comp]
      else acc.dropLast) []
    let out := List.replicate slashes '/' ++ interSlash newComps
    if out = [] then ['.'] else out

/-- `os.path.abspath` on character lists, with the working directory made
explicit: an already absolute path is only normalized, a relative path is
first joined onto the working directory. -/
def abspathChars (cwd p : List Char) : List Char :=
  normChars (if p.take 1 = ['/'] then p else joinChars cwd p)

/-- A path is absolute when it starts with a slash. -/
def isAbs (s : String) : Bool := s.data.take 1 = ['/']

/-- `os.path.join` on strings. -/
def posixJoin (a b : String) : String := String.mk (joinChars a.data b.data)

/-- `os.path.dirname` on strings. -/
def posixDirname (s : String) : String := String.mk (dirnameChars s.data)

/-- `os.path.normpath` on strings. -/
def posixNormpath (s : String) : String := String.mk (normChars s.data)

/-- `os.path.abspath` on strings, working directory explicit. -/
def posixAbspath (cwd p : String) : String :=
  String.mk (abspathChars cwd.data p.data)

/-- What the filesystem holds at a given path: a regular file, a directory,
or nothing.  `os.path.isfile` answers true exactly for `file`. -/
inductive FileKind where
  | file
  | dir
  | absent
deriving DecidableEq

/-- Outcome of attempting to launch a path: the child was created and exited
with the given status, or the OS raised a launch-time error (permission
denied, exec failure, ...), in which case no child exists and Python raises
an exception that `subprocess.CalledProcessError` does not cover. -/
inductive LaunchOutcome where
  | exit (code : Nat)
  | osError (msg : String)
deriving DecidableEq

/-- The implicit environment of the script: its own `__file__` value, the
working directory (used by `os.path.abspath` when `__file__` is relative),
the filesystem facts, and the outcome the OS would produce when asked to
launch a given path. -/
structure Env where
  file : String
  cwd : String
  fs : String → FileKind
  launch : String → LaunchOutcome

/-- Observable behavior of one call of `run_executable`: the lines printed to
standard output, the paths spawned as child processes, and the message of an
uncaught exception when one propagates out (`none` = the call returns
normally, i.e. the Python function returns `None`). -/
structure RunResult where
  output : List String
  spawned : List String
  fault : Option String
deriving DecidableEq

/-- The error line printed when the existence check fails, from
`print(f"Error: The executable was not found at {exe_path}")`. -/
def notFoundMsg (p : String) : String :=
  "Error: The executable was not found at " ++ p

/-- The error line printed when the child exits with a non-zero status `c`:
`print(f"Error: The executable failed with error {e}")` where `str(e)` for a
`subprocess.CalledProcessError` with positive return code is
`Command '<cmd>' returned non-zero exit status <code>.` -/
def failMsg (p : String) (c : Nat) : String :=
  "Error: The executable failed with error Command '" ++ p ++
    "' returned non-zero exit status " ++ toString c ++ "."

/-- The target path the script computes:
`os.path.join(os.path.dirname(os.path.abspath(__file__)),`
`os.path.join('obj-x86_64-pc-windows-msvc', 'dist', 'bin', 'lunarfox.exe'))`. -/
def exePathOf (cwd file : String) : String :=
  posixJoin (posixDirname (posixAbspath cwd file))
    (posixJoin (posixJoin (posixJoin "obj-x86_64-pc-windows-msvc" "dist") "bin")
      "lunarfox.exe")

/-- The body of `run_executable` in `runconfig.py`: compute the target path;
if `os.path.isfile` denies it, print the not-found line and return; otherwise
run the target with `check=True`, catching `CalledProcessError` (non-zero
child exit) and printing the failure line, while any other launch-time
exception propagates uncaught. -/
def run_executable (env : Env) : RunResult :=
  let exe_path := exePathOf env.cwd env.file
  if env.fs exe_path ≠ FileKind.file then
    { output := [notFoundMsg exe_path], spawned := [], fault := none }
  else
    match env.launch exe_path with
    | LaunchOutcome.exit c =>
        if c = 0 then { output := [], spawned := [exe_path], fault := none }
        else { output := [failMsg exe_path c], spawned := [exe_path], fault := none }
    | LaunchOutcome.osError m =>
        { output := [], spawned := [], fault := some m }

/-- The `if __name__ == '__main__'` guard simply calls `run_executable`. -/
def mainEntry (env : Env) : RunResult := run_executable env

/-- Exit code of the launcher process: the script never calls `sys.exit`, so
the interpreter exits with 0 unless an exception propagates uncaught, in
which case Python exits with status 1. -/
def processExitCode (env : Env) : Nat :=
  match (mainEntry env).fault with
  | none => 0
  | some _ => 1

/-- A console-and-process log, for reasoning about sequential invocations:
the lines printed so far and the child processes spawned so far. -/
structure World where
  console : List String
  procs : List String
deriving DecidableEq

/-- One invocation of the script extends the log with the output and the
spawned children of that run. -/
def invoke (env : Env) (w : World) : World :=
  let r := run_executable env
  { console := w.console ++ r.output, procs := w.procs ++ r.spawned }

/-! Sample environments used to instantiate the theorems below. -/

/-- Environment with the script at `/opt/app/runconfig` and nothing on the
filesystem. -/
def envAbsent : Env :=
  { file := "/opt/app/runconfig", cwd := "/",
    fs := fun _ => FileKind.absent, launch := fun _ => LaunchOutcome.exit 0 }

/-- Environment where the target exists and every launch exits with 0. -/
def envOk : Env :=
  { file := "/opt/app/runconfig", cwd := "/",
    fs := fun _ => FileKind.file, launch := fun _ => LaunchOutcome.exit 0 }

/-- Environment where the target exists and every launch exits with 2. -/
def envExit2 : Env :=
  { file := "/opt/app/runconfig", cwd := "/",
    fs := fun _ => FileKind.file, launch := fun _ => LaunchOutcome.exit 2 }

/-- Environment where the target exists but launching it raises an OS-level
error, e.g. a permission denial. -/
def envPerm : Env :=
  { file := "/opt/app/runconfig", cwd := "/",
    fs := fun _ => FileKind.file,
    launch := fun _ => LaunchOutcome.osError "PermissionError" }

/-- Environment where the computed path names a directory, not a regular
file. -/
def envDir : Env :=
  { file := "/opt/app/runconfig", cwd := "/",
    fs := fun _ => FileKind.dir, launch := fun _ => LaunchOutcome.exit 0 }

/-! Helper lemmas shared by the claim theorems. -/

/-- The character data of a concatenation is the concatenation of the
character data. -/
theorem strData_append (a b : String) : (a ++ b).data = a.data ++ b.data := by
  cases a
  cases b
  rfl

/-- `os.path.abspath` leaves an absolute, already normalized path alone,
whatever the working directory is. -/
theorem abspath_of_abs (cwd file : String) (habs : isAbs file = true)
    (hnorm : posixNormpath file = file) : posixAbspath cwd file = file := by
  have h1 : file.data.take 1 = ['/'] := of_decide_eq_true habs
  show String.mk (abspathChars cwd.data file.data) = file
  unfold abspathChars
  rw [if_pos h1]
  exact hnorm

/-- On the missing-file branch the script prints the not-found line and
returns with no spawn and no fault. -/
theorem run_missing (env : Env)
    (h : env.fs (exePathOf env.cwd env.file) ≠ FileKind.file) :
    run_executable env =
      { output := [notFoundMsg (exePathOf env.cwd env.file)],
        spawned := [], fault := none } := by
  simp only [run_executable]
  rw [if_pos h]

/-- On the success branch the script spawns the target once, prints nothing
and raises nothing. -/
theorem run_exit0 (env : Env)
    (hfs : env.fs (exePathOf env.cwd env.file) = FileKind.file)
    (hl : env.launch (exePathOf env.cwd env.file) = LaunchOutcome.exit 0) :
    run_executable env =
      { output := [], spawned := [exePathOf env.cwd env.file], fault := none } := by
  simp only [run_executable]
  rw [if_neg (by simp [hfs]), hl]
  rfl

/-- When the child exits with a non-zero status the script spawns the target
once, prints the failure line and raises nothing. -/
theorem run_exit_ne (env : Env) (c : Nat)
    (hfs : env.fs (exePathOf env.cwd env.file) = FileKind.file)
    (hl : env.launch (exePathOf env.cwd env.file) = LaunchOutcome.exit c)
    (hc : c ≠ 0) :
    run_executable env =
      { output := [failMsg (exePathOf env.cwd env.file) c],
        spawned := [exePathOf env.cwd env.file], fault := none } := by
  simp only [run_executable]
  rw [if_neg (by simp [hfs]), hl]
  simp [hc]

/-- When the launch attempt raises an OS-level error, no child is recorded,
nothing is printed, and the fault propagates out of the call. -/
theorem run_osError (env : Env) (m : String)
    (hfs : env.fs (exePathOf env.cwd env.file) = FileKind.file)
    (hl : env.launch (exePathOf env.cwd env.file) = LaunchOutcome.osError m) :
    run_executable env = { output := [], spawned := [], fault := some m } := by
  simp only [run_executable]
  rw [if_neg (by simp [hfs]), hl]

/-! The claim theorems. -/

/-- Claim C1: for every (absolute, normalized) script location, the target
path computed by `run_executable` equals the join of the directory of the
script with the fixed relative suffix
`obj-x86_64-pc-windows-msvc/dist/bin/lunarfox.exe`, and it is a pure,
deterministic function of the script location alone — in particular it does
not depend on the working directory. -/
theorem claim_C1_target_path (cwd file : String) (habs : isAbs file = true)
    (hnorm : posixNormpath file = file) :
    exePathOf cwd file =
      posixJoin (posixDirname file)
        "obj-x86_64-pc-windows-msvc/dist/bin/lunarfox.exe" ∧
    ∀ cwd2 : String, exePathOf cwd2 file = exePathOf cwd file := by
  constructor
  · unfold exePathOf
    rw [abspath_of_abs cwd file habs hnorm]
    rfl
  · intro cwd2
    unfold exePathOf
    rw [abspath_of_abs cwd file habs hnorm, abspath_of_abs cwd2 file habs hnorm]

/-- Witness for C1 at the concrete location `/opt/app/runconfig`. -/
theorem claim_C1_target_path_witness :
    isAbs "/opt/app/runconfig" = true ∧
    posixNormpath "/opt/app/runconfig" = "/opt/app/runconfig" ∧
    (exePathOf "/" "/opt/app/runconfig" =
      posixJoin (posixDirname "/opt/app/runconfig")
        "obj-x86_64-pc-windows-msvc/dist/bin/lunarfox.exe" ∧
    ∀ cwd2 : String,
      exePathOf cwd2 "/opt/app/runconfig" = exePathOf "/" "/opt/app/runconfig") :=
  ⟨by decide, by decide,
    claim_C1_target_path "/" "/opt/app/runconfig" (by decide) (by decide)⟩

/-- Claim C2: when no file exists at the computed path, `run_executable`
spawns nothing, returns normally (no fault), and prints exactly one line to
standard output whose characters contain the attempted path as a contiguous
segment. -/
theorem claim_C2_missing_file (env : Env)
    (h : env.fs (exePathOf env.cwd env.file) = FileKind.absent) :
    (run_executable env).spawned = [] ∧
    (run_executable env).fault = none ∧
    ∃ l r : List Char,
      (run_executable env).output =
        [String.mk (l ++ (exePathOf env.cwd env.file).data ++ r)] := by
  have hne : env.fs (exePathOf env.cwd env.file) ≠ FileKind.file := by
    rw [h]
    exact fun hc => FileKind.noConfusion hc
  have hr := run_missing env hne
  refine ⟨by rw [hr], by rw [hr],
    "Error: The executable was not found at ".data, [], ?_⟩
  rw [hr, List.append_nil]
  show [notFoundMsg (exePathOf env.cwd env.file)] = _
  unfold notFoundMsg
  rw [show ∀ a b : String, a ++ b = String.mk (a.data ++ b.data) from
    fun a b => by cases a; cases b; rfl]

/-- Witness for C2: in `envAbsent` nothing is spawned, no fault is raised,
and the one output line contains the attempted path. -/
theorem claim_C2_missing_file_witness :
    (run_executable envAbsent).spawned = [] ∧
    (run_executable envAbsent).fault = none ∧
    ∃ l r : List Char,
      (run_executable envAbsent).output =
        [String.mk (l ++ (exePathOf envAbsent.cwd envAbsent.file).data ++ r)] :=
  claim_C2_missing_file envAbsent rfl

/-- Claim C3: when a regular file exists at the computed path and the child
exits with status 0, `run_executable` spawns exactly that one child, prints
nothing, and returns normally. -/
theorem claim_C3_success (env : Env)
    (hfs : env.fs (exePathOf env.cwd env.file) = FileKind.file)
    (hl : env.launch (exePathOf env.cwd env.file) = LaunchOutcome.exit 0) :
    run_executable env =
      { output := [], spawned := [exePathOf env.cwd env.file], fault := none } :=
  run_exit0 env hfs hl

/-- Witness for C3 in `envOk`. -/
theorem claim_C3_success_witness :
    run_executable envOk =
      { output := [], spawned := [exePathOf envOk.cwd envOk.file], fault := none } :=
  claim_C3_success envOk rfl rfl

/-- Claim C4: when the file exists and the child exits with a non-zero
status, `run_executable` catches the `CalledProcessError`, prints one error
line whose characters contain the failing status, and raises no fault. -/
theorem claim_C4_child_failure (env : Env) (c : Nat)
    (hfs : env.fs (exePathOf env.cwd env.file) = FileKind.file)
    (hl : env.launch (exePathOf env.cwd env.file) = LaunchOutcome.exit c)
    (hc : c ≠ 0) :
    (run_executable env).fault = none ∧
    (run_executable env).spawned = [exePathOf env.cwd env.file] ∧
    (run_executable env).output = [failMsg (exePathOf env.cwd env.file) c] ∧
    ∃ l r : List Char,
      (failMsg (exePathOf env.cwd env.file) c).data =
        l ++ (toString c).data ++ r := by
  have hr := run_exit_ne env c hfs hl hc
  refine ⟨by rw [hr], by rw [hr], by rw [hr],
    ("Error: The executable failed with error Command '" ++
      exePathOf env.cwd env.file ++
      "' returned non-zero exit status ").data, ".".data, ?_⟩
  unfold failMsg
  rw [strData_append, strData_append]

/-- Witness for C4 in `envExit2`, child exit status 2. -/
theorem claim_C4_child_failure_witness :
    (run_executable envExit2).fault = none ∧
    (run_executable envExit2).spawned = [exePathOf envExit2.cwd envExit2.file] ∧
    (run_executable envExit2).output =
      [failMsg (exePathOf envExit2.cwd envExit2.file) 2] ∧
    ∃ l r : List Char,
      (failMsg (exePathOf envExit2.cwd envExit2.file) 2).data =
        l ++ (toString 2).data ++ r :=
  claim_C4_child_failure envExit2 2 rfl rfl (by decide)

/-- Claim C5: a launch-time failure other than the two handled kinds (here:
the OS raises an error after the existence check passed) has no recovery
path — the fault propagates out of `run_executable` uncaught, with nothing
printed and no child recorded. -/
theorem claim_C5_unhandled_fault (env : Env) (m : String)
    (hfs : env.fs (exePathOf env.cwd env.file) = FileKind.file)
    (hl : env.launch (exePathOf env.cwd env.file) = LaunchOutcome.osError m) :
    run_executable env = { output := [], spawned := [], fault := some m } :=
  run_osError env m hfs hl

/-- Witness for C5 in `envPerm`, where launching raises a permission error. -/
theorem claim_C5_unhandled_fault_witness :
    run_executable envPerm =
      { output := [], spawned := [], fault := some "PermissionError" } :=
  claim_C5_unhandled_fault envPerm "PermissionError" rfl rfl

/-- Claim C6: the launcher process exit code is always 0 or 1, and it is 1
exactly when an OS-level launch fault escaped the two handled error paths;
on the handled paths (missing executable, child exit status) the process
terminates normally with code 0. -/
theorem claim_C6_exit_code (env : Env) :
    (processExitCode env = 0 ∨ processExitCode env = 1) ∧
    (processExitCode env = 1 ↔
      ∃ m : String,
        env.fs (exePathOf env.cwd env.file) = FileKind.file ∧
        env.launch (exePathOf env.cwd env.file) = LaunchOutcome.osError m) := by
  by_cases hfs : env.fs (exePathOf env.cwd env.file) = FileKind.file
  · cases hl : env.launch (exePathOf env.cwd env.file) with
    | exit c =>
        have hpc : processExitCode env = 0 := by
          by_cases hc : c = 0
          · subst hc
            simp [processExitCode, mainEntry, run_exit0 env hfs hl]
          · simp [processExitCode, mainEntry, run_exit_ne env c hfs hl hc]
        refine ⟨Or.inl hpc, fun h1 => ?_, fun hex => ?_⟩
        · rw [hpc] at h1
          exact absurd h1 (by decide)
        · obtain ⟨m, -, hm⟩ := hex
          exact LaunchOutcome.noConfusion hm
    | osError m =>
        have hpc : processExitCode env = 1 := by
          simp [processExitCode, mainEntry, run_osError env m hfs hl]
        exact ⟨Or.inr hpc, fun _ => ⟨m, hfs, rfl⟩, fun _ => hpc⟩
  · have hpc : processExitCode env = 0 := by
      simp [processExitCode, mainEntry, run_missing env hfs]
    refine ⟨Or.inl hpc, fun h1 => ?_, fun hex => ?_⟩
    · rw [hpc] at h1
      exact absurd h1 (by decide)
    · obtain ⟨m, hm, -⟩ := hex
      exact absurd hm hfs

/-- Witness for C6 in `envAbsent` (handled path, exit code 0). -/
theorem claim_C6_exit_code_witness :
    (processExitCode envAbsent = 0 ∨ processExitCode envAbsent = 1) ∧
    (processExitCode envAbsent = 1 ↔
      ∃ m : String,
        envAbsent.fs (exePathOf envAbsent.cwd envAbsent.file) = FileKind.file ∧
        envAbsent.launch (exePathOf envAbsent.cwd envAbsent.file) =
          LaunchOutcome.osError m) :=
  claim_C6_exit_code envAbsent

/-- Claim C7: with the script at `/opt/app/runconfig`, the computed target is
`/opt/app/obj-x86_64-pc-windows-msvc/dist/bin/lunarfox.exe`, and when no file
exists there the printed error line contains exactly that path string. -/
theorem claim_C7_concrete_scenario :
    exePathOf "/" "/opt/app/runconfig" =
      "/opt/app/obj-x86_64-pc-windows-msvc/dist/bin/lunarfox.exe" ∧
    (run_executable envAbsent).output =
      ["Error: The executable was not found at /opt/app/obj-x86_64-pc-windows-msvc/dist/bin/lunarfox.exe"] ∧
    ∃ l r : List Char,
      (run_executable envAbsent).output =
        [String.mk
          (l ++ "/opt/app/obj-x86_64-pc-windows-msvc/dist/bin/lunarfox.exe".data ++ r)] :=
  ⟨by decide, by decide,
    "Error: The executable was not found at ".data, [], by decide⟩

/-- Claim C8: two sequential invocations with the file present and each
child exiting 0 produce two independent, identical successful launches: the
log gains the same spawned path twice and no console output. -/
theorem claim_C8_two_runs (env : Env) (w : World)
    (hfs : env.fs (exePathOf env.cwd env.file) = FileKind.file)
    (hl : env.launch (exePathOf env.cwd env.file) = LaunchOutcome.exit 0) :
    invoke env (invoke env w) =
      { console := w.console,
        procs := w.procs ++
          [exePathOf env.cwd env.file, exePathOf env.cwd env.file] } := by
  simp only [invoke, run_exit0 env hfs hl]
  simp

/-- Witness for C8 in `envOk` starting from the empty log. -/
theorem claim_C8_two_runs_witness :
    invoke envOk (invoke envOk { console := [], procs := [] }) =
      { console := [],
        procs := [] ++
          [exePathOf envOk.cwd envOk.file, exePathOf envOk.cwd envOk.file] } :=
  claim_C8_two_runs envOk { console := [], procs := [] } rfl rfl

/-- Claim C9: when the computed path exists but is not a regular file (a
directory), `os.path.isfile` answers false and `run_executable` takes the
missing-executable branch: it reports the path and spawns nothing. -/
theorem claim_C9_not_regular_file (env : Env)
    (h : env.fs (exePathOf env.cwd env.file) = FileKind.dir) :
    run_executable env =
      { output := [notFoundMsg (exePathOf env.cwd env.file)],
        spawned := [], fault := none } :=
  run_missing env (by rw [h]; exact fun hc => FileKind.noConfusion hc)

/-- Witness for C9 in `envDir`, where the computed path is a directory. -/
theorem claim_C9_not_regular_file_witness :
    run_executable envDir =
      { output := [notFoundMsg (exePathOf envDir.cwd envDir.file)],
        spawned := [], fault := none } :=
  claim_C9_not_regular_file envDir rfl

/-- Claim C10: `run_executable` is deterministic — two runs that agree on the
script location, the working directory, the filesystem fact at the computed
path and the launch outcome at the computed path have identical observable
behavior (output, spawns, fault; the Python return value is `None` in every
case). -/
theorem claim_C10_deterministic (e1 e2 : Env)
    (hfile : e1.file = e2.file) (hcwd : e1.cwd = e2.cwd)
    (hfs : e1.fs (exePathOf e1.cwd e1.file) = e2.fs (exePathOf e2.cwd e2.file))
    (hl : e1.launch (exePathOf e1.cwd e1.file) =
      e2.launch (exePathOf e2.cwd e2.file)) :
    run_executable e1 = run_executable e2 := by
  have hp : exePathOf e1.cwd e1.file = exePathOf e2.cwd e2.file := by
    rw [hfile, hcwd]
  simp only [run_executable]
  rw [hfs, hl, hp]

/-- Witness for C10: two structurally different environments that agree on
the relevant facts produce the same behavior. -/
theorem claim_C10_deterministic_witness :
    run_executable envOk =
      run_executable
        { file := "/opt/app/runconfig", cwd := "/",
          fs := fun _ => FileKind.file,
          launch := fun p =>
            if p = "" then LaunchOutcome.osError "unused"
            else LaunchOutcome.exit 0 } :=
  claim_C10_deterministic envOk
    { file := "/opt/app/runconfig", cwd := "/",
      fs := fun _ => FileKind.file,
      launch := fun p =>
        if p = "" then LaunchOutcome.osError "unused"
        else LaunchOutcome.exit 0 }
    rfl rfl rfl (by decide)

end LunarFox
